import Mathlib

/-!
# Verification of the F1 qualifying aggregation engine

Shallow embedding of `data_processing_old.py`: the time normalizer,
gap calculator, timeline builder, and (spec-modelled) stint segmenter,
together with proofs of the specified properties.

Conventions of the embedding:
* pandas/NumPy missing values (`NaN` / `None`) are `Option.none`;
  numeric values are rationals (`ℚ`).
* a DataFrame is a `List Row` in file order; pandas filtering keeps order.
* `Series.unique()` is `uniqueFirst` (first-encounter deduplication).
* Python's `set(...)` iteration order is not determined by the input
  (string hash randomization); the timeline builder therefore takes the
  driver enumeration order as an explicit parameter `enum`.
-/

set_option maxHeartbeats 1000000

attribute [local semireducible] Rat.add Rat.sub Rat.mul Rat.inv

/-- One row of the qualifying table (the collector's CSV schema).
`q1`/`q2`/`q3` hold the raw duration strings (absent cell = `none`);
`q1Seconds`/`q2Seconds`/`q3Seconds` the derived seconds. -/
structure Row where
  driverNumber : Int
  broadcastName : String
  teamName : String
  position : Option ℚ
  q1 : Option String
  q2 : Option String
  q3 : Option String
  year : Int
  eventName : String
  wetSession : Bool
  q1Seconds : Option ℚ
  q2Seconds : Option ℚ
  q3Seconds : Option ℚ
deriving DecidableEq

/-- Per-event summary dictionary built by `create_event_summary`. -/
structure EventSummary where
  round : String
  position : Option ℚ
  gapToPole : Option ℚ
  teammateGap : Option ℚ
  hasTeammateData : Bool
deriving DecidableEq

/-- Worker for `uniqueFirst`: keeps elements not seen before. -/
def uniqueFirstAux {α : Type} [DecidableEq α] (seen : List α) : List α → List α
  | [] => []
  | a :: l =>
    if a ∈ seen then uniqueFirstAux seen l
    else a :: uniqueFirstAux (a :: seen) l

/-- First-encounter deduplication: pandas `Series.unique()` keeps the
first occurrence of each value, in order. -/
def uniqueFirst {α : Type} [DecidableEq α] (l : List α) : List α :=
  uniqueFirstAux [] l

/-- `get_best_time`: Q3 seconds if present, else Q2, else Q1, else null. -/
def get_best_time (driver_data : Row) : Option ℚ :=
  match driver_data.q3Seconds with
  | some t => some t
  | none =>
    match driver_data.q2Seconds with
    | some t => some t
    | none => driver_data.q1Seconds

/-- `calculate_gap_to_pole`: null position propagates; position 1 is
forced to exactly 0; a missing best or pole time gives null; otherwise
the difference of best time and pole time. -/
def calculate_gap_to_pole (position : Option ℚ) (best_time : Option ℚ)
    (pole_time : Option ℚ) : Option ℚ :=
  match position with
  | none => none
  | some p =>
    if p = 1 then some 0
    else
      match best_time, pole_time with
      | some b, some pl => some (b - pl)
      | _, _ => none

/-- `create_event_summary`: the per-event dictionary;
`hasTeammateData` is `not pd.isna(teammate_gap)`. -/
def create_event_summary (event_name : String) (position : Option ℚ)
    (gap_to_pole : Option ℚ) (teammate_gap : Option ℚ) : EventSummary :=
  { round := event_name
    position := position
    gapToPole := gap_to_pole
    teammateGap := teammate_gap
    hasTeammateData := teammate_gap.isSome }

/-- `calculate_teammate_gaps`: over the team's rows at one event, when the
unique broadcast names are exactly two, the gap of each driver is their
first row's best time minus the other's; in every other case each driver's
gap is null.  The Python dict with default `np.nan` is modelled as a total
function `String → Option ℚ`. -/
def calculate_teammate_gaps (team_data : List Row) : String → Option ℚ :=
  match uniqueFirst (team_data.map (fun r => r.broadcastName)) with
  | [driver1, driver2] =>
    match (team_data.filter (fun r => r.broadcastName == driver1)).head?,
          (team_data.filter (fun r => r.broadcastName == driver2)).head? with
    | some r1, some r2 =>
      match get_best_time r1, get_best_time r2 with
      | some time1, some time2 =>
        fun d =>
          if d == driver1 then some (time1 - time2)
          else if d == driver2 then some (time2 - time1)
          else none
      | _, _ => fun _ => none
    | _, _ => fun _ => none
  | _ => fun _ => none

/-- Split a character list at every occurrence of `c` (the separator is
dropped; `n` separators yield `n + 1` pieces). -/
def splitOnChar (c : Char) : List Char → List (List Char)
  | [] => [[]]
  | a :: l =>
    match splitOnChar c l with
    | [] => if a = c then [[], []] else [[a]]
    | w :: ws => if a = c then [] :: w :: ws else (a :: w) :: ws

/-- Parse a nonempty all-digit character list as a natural number. -/
def digitsToNat (l : List Char) : Option Nat :=
  if l ≠ [] ∧ l.all (fun c => c.isDigit) then
    some (l.foldl (fun n c => 10 * n + (c.toNat - 48)) 0)
  else none

/-- Parse `HH:MM:SS` or `HH:MM:SS.ffffff` (character list) as seconds. -/
def parseClock (l : List Char) : Option ℚ :=
  match splitOnChar ':' l with
  | [h, m, s] =>
    match digitsToNat h, digitsToNat m with
    | some hn, some mn =>
      match splitOnChar '.' s with
      | [w] =>
        (digitsToNat w).map (fun wn => ((3600 * hn + 60 * mn + wn : Nat) : ℚ))
      | [w, f] =>
        match digitsToNat w, digitsToNat f with
        | some wn, some fn =>
          some (((3600 * hn + 60 * mn + wn : Nat) : ℚ)
                + (fn : ℚ) / ((10 : ℚ) ^ f.length))
        | _, _ => none
      | _ => none
    | _, _ => none
  | _ => none

/-- `pd.to_timedelta` on one cell, restricted to the duration formats the
collector's CSV serialization produces: `"D days HH:MM:SS[.ffffff]"` or
`"HH:MM:SS[.ffffff]"`.  Returns the total seconds, or `none` when the
string cannot be parsed (in which case `pd.to_timedelta` raises). -/
def parse_timedelta_seconds (s : String) : Option ℚ :=
  match splitOnChar ' ' s.data with
  | [clock] => parseClock clock
  | [d, unit, clock] =>
    if unit = "days".data then
      match digitsToNat d, parseClock clock with
      | some dn, some q => some (((86400 * dn : Nat) : ℚ) + q)
      | _, _ => none
    else none
  | _ => none

/-- One cell of `pd.to_timedelta` + `total_seconds`: an absent cell (read
as `NaN`) becomes a null seconds value, a parsable duration string its
seconds, and an unparsable string raises (`errors` is left at its default
`'raise'`). -/
def convertField : Option String → Except String (Option ℚ)
  | none => Except.ok none
  | some s =>
    match parse_timedelta_seconds s with
    | some q => Except.ok (some q)
    | none => Except.error s

/-- `convert_time` on one row: convert the three segment durations and
fill the derived seconds columns. -/
def convertRow (r : Row) : Except String Row := do
  let a ← convertField r.q1
  let b ← convertField r.q2
  let c ← convertField r.q3
  Except.ok { r with q1Seconds := a, q2Seconds := b, q3Seconds := c }

/-- `convert_time`: convert every row's `Q1`/`Q2`/`Q3` duration strings to
seconds; the first unparsable cell aborts the conversion with an error. -/
def convert_time (df : List Row) : Except String (List Row) :=
  df.mapM convertRow

/-- Finalized driver-season entry (after the clean-up that deletes the
accumulator keys). -/
structure DriverSeasonEntry where
  year : Int
  driver : String
  team : String
  events : List EventSummary
  avgQualifyingPosition : Option ℚ
  avgGapToPole : Option ℚ
  avgTeammateGap : Option ℚ
  dataCompleteness : ℚ
deriving DecidableEq

/-- Accumulating driver entry, as built by `create_driver_entry` and
mutated while the event loop runs. -/
structure DriverEntryAcc where
  year : Int
  driver : String
  team : String
  events : List EventSummary
  positions : List (Option ℚ)
  gapToPole_values : List ℚ
  teammateGap_values : List ℚ
  completeDataCount : Nat
  totalEvents : Nat
deriving DecidableEq

/-- `create_driver_entry`: the initial accumulator for one driver-season. -/
def create_driver_entry (year : Int) (driver : String) (team : String) :
    DriverEntryAcc :=
  { year := year
    driver := driver
    team := team
    events := []
    positions := []
    gapToPole_values := []
    teammateGap_values := []
    completeDataCount := 0
    totalEvents := 0 }

/-- Pole time of one event's rows:
`pole_data.iloc[0]['Q3Seconds'] if not pole_data.empty else np.nan`. -/
def eventPoleTime (event_data : List Row) : Option ℚ :=
  match (event_data.filter (fun r => r.position == some 1)).head? with
  | some r => r.q3Seconds
  | none => none

/-- Body of the per-event loop for one driver: builds the
`EventSummary` for driver `driver` (season team `team`) at event
`event_name`, from the season's rows `year_data`. -/
def eventSummaryFor (year_data : List Row) (team : String) (driver : String)
    (event_name : String) : EventSummary :=
  let event_data := year_data.filter (fun r => r.eventName == event_name)
  let pole_time := eventPoleTime event_data
  match (event_data.filter (fun r => r.broadcastName == driver)).head? with
  | none => create_event_summary event_name none none none
  | some driver_data =>
    let team_data := event_data.filter (fun r => r.teamName == team)
    let gaps := calculate_teammate_gaps team_data
    let best_time := get_best_time driver_data
    let qualifying_position := driver_data.position
    let gap_to_pole :=
      calculate_gap_to_pole qualifying_position best_time pole_time
    create_event_summary event_name qualifying_position gap_to_pole
      (gaps driver)

/-- One iteration of the per-event loop: append the event summary and
update the running accumulators (values are appended only when not null,
mirroring the `pd.isna` guards). -/
def accumulateEvent (year_data : List Row) (team : String) (driver : String)
    (acc : DriverEntryAcc) (event_name : String) : DriverEntryAcc :=
  let s := eventSummaryFor year_data team driver event_name
  { acc with
    events := acc.events ++ [s]
    positions := acc.positions ++ [s.position]
    gapToPole_values := acc.gapToPole_values ++ s.gapToPole.toList
    teammateGap_values := acc.teammateGap_values ++ s.teammateGap.toList
    completeDataCount :=
      acc.completeDataCount + (if s.teammateGap.isSome then 1 else 0)
    totalEvents := acc.totalEvents + 1 }

/-- `np.mean(values) if values else np.nan`. -/
def optionalMean (values : List ℚ) : Option ℚ :=
  if values.isEmpty then none else some (values.sum / values.length)

/-- The final-statistics pass over one accumulated entry: averages over
the non-null values, completeness ratio guarded against an empty season,
then the accumulator keys are dropped. -/
def finalizeEntry (acc : DriverEntryAcc) : DriverSeasonEntry :=
  { year := acc.year
    driver := acc.driver
    team := acc.team
    events := acc.events
    avgQualifyingPosition := optionalMean (acc.positions.filterMap id)
    avgGapToPole := optionalMean acc.gapToPole_values
    avgTeammateGap := optionalMean acc.teammateGap_values
    dataCompleteness :=
      if 0 < acc.totalEvents then
        (acc.completeDataCount : ℚ) / (acc.totalEvents : ℚ)
      else 0 }

/-- `driver_team_mapping.get((year, driver))`: the team of the first row
of `driver` in season `year`, if any. -/
def driverTeamMapping (quali_data : List Row) (year : Int) (driver : String) :
    Option String :=
  (((quali_data.filter (fun r => r.year == year)).filter
      (fun r => r.broadcastName == driver)).head?).map (fun r => r.teamName)

/-- Full entry of one driver-season: run the event loop over the season's
distinct events, then finalize. -/
def buildDriverEntry (year : Int) (driver : String) (team : String)
    (year_data : List Row) (all_events : List String) : DriverSeasonEntry :=
  finalizeEntry
    (all_events.foldl (accumulateEvent year_data team driver)
      (create_driver_entry year driver team))

/-- The per-year loop body: enumerate the season's drivers in the order
given by `enum` (modelling `set(...)` iteration), skip drivers with no
team mapping (`continue`), and build each driver's entry. -/
def processYear (enum : List String → List String) (quali_data : List Row)
    (year : Int) : List DriverSeasonEntry :=
  let year_data := quali_data.filter (fun r => r.year == year)
  let all_events := uniqueFirst (year_data.map (fun r => r.eventName))
  let year_drivers := enum (uniqueFirst (year_data.map (fun r => r.broadcastName)))
  year_drivers.filterMap (fun driver =>
    (driverTeamMapping quali_data year driver).map (fun team =>
      buildDriverEntry year driver team year_data all_events))

/-- `process_qualifying_data`: seasons in first-encounter order of the
`Year` column; within a season, drivers in the iteration order of
`set(year_data['BroadcastName'].unique())`, supplied as `enum`. -/
def process_qualifying_data (enum : List String → List String)
    (quali_data : List Row) : List DriverSeasonEntry :=
  (uniqueFirst (quali_data.map (fun r => r.year))).flatMap
    (processYear enum quali_data)

/-! ## Basic lemmas about the embedding -/

theorem mem_uniqueFirstAux {α : Type} [DecidableEq α] :
    ∀ (l seen : List α) (a : α),
      a ∈ uniqueFirstAux seen l ↔ a ∈ l ∧ a ∉ seen := by
  intro l
  induction l with
  | nil => intro seen a; simp [uniqueFirstAux]
  | cons b l ih =>
    intro seen a
    simp only [uniqueFirstAux]
    by_cases hb : b ∈ seen
    · rw [if_pos hb, ih]
      simp only [List.mem_cons]
      constructor
      · rintro ⟨h1, h2⟩
        exact ⟨Or.inr h1, h2⟩
      · rintro ⟨h1 | h1, h2⟩
        · exact absurd (h1 ▸ hb) h2
        · exact ⟨h1, h2⟩
    · rw [if_neg hb]
      simp only [List.mem_cons, ih, not_or]
      constructor
      · rintro (rfl | ⟨h1, h2, h3⟩)
        · exact ⟨Or.inl rfl, hb⟩
        · exact ⟨Or.inr h1, h3⟩
      · rintro ⟨rfl | h1, h2⟩
        · exact Or.inl rfl
        · by_cases hab : a = b
          · exact Or.inl hab
          · exact Or.inr ⟨h1, hab, h2⟩

@[simp] theorem mem_uniqueFirst {α : Type} [DecidableEq α] {l : List α}
    {a : α} : a ∈ uniqueFirst l ↔ a ∈ l := by
  rw [uniqueFirst, mem_uniqueFirstAux]
  simp

theorem nodup_uniqueFirstAux {α : Type} [DecidableEq α] :
    ∀ (l seen : List α), (uniqueFirstAux seen l).Nodup := by
  intro l
  induction l with
  | nil => intro seen; simp [uniqueFirstAux]
  | cons b l ih =>
    intro seen
    simp only [uniqueFirstAux]
    by_cases hb : b ∈ seen
    · rw [if_pos hb]; exact ih _
    · rw [if_neg hb]
      refine List.nodup_cons.mpr ⟨fun hmem => ?_, ih _⟩
      rw [mem_uniqueFirstAux] at hmem
      exact hmem.2 (List.mem_cons_self b seen)

theorem nodup_uniqueFirst {α : Type} [DecidableEq α] (l : List α) :
    (uniqueFirst l).Nodup :=
  nodup_uniqueFirstAux l []

theorem round_eventSummaryFor (year_data : List Row) (team driver e : String) :
    (eventSummaryFor year_data team driver e).round = e := by
  simp only [eventSummaryFor]
  split <;> simp [create_event_summary]

theorem hasTeammateData_eventSummaryFor (year_data : List Row)
    (team driver e : String) :
    (eventSummaryFor year_data team driver e).hasTeammateData =
      (eventSummaryFor year_data team driver e).teammateGap.isSome := by
  simp only [eventSummaryFor]
  split <;> simp [create_event_summary]

theorem filterMap_cons_toList {α β : Type} (g : α → Option β) (a : α)
    (l : List α) :
    List.filterMap g (a :: l) = (g a).toList ++ List.filterMap g l := by
  cases h : g a <;> simp [List.filterMap_cons, h]

/-- The event loop, summarized: after folding over the event list, the
accumulators hold exactly the per-event summaries and their non-null
projections. -/
theorem foldl_accumulateEvent (year_data : List Row) (team driver : String)
    (l : List String) (acc : DriverEntryAcc) :
    l.foldl (accumulateEvent year_data team driver) acc =
      { year := acc.year
        driver := acc.driver
        team := acc.team
        events := acc.events ++ l.map (eventSummaryFor year_data team driver)
        positions := acc.positions ++
          (l.map (eventSummaryFor year_data team driver)).map
            (fun s => s.position)
        gapToPole_values := acc.gapToPole_values ++
          (l.map (eventSummaryFor year_data team driver)).filterMap
            (fun s => s.gapToPole)
        teammateGap_values := acc.teammateGap_values ++
          (l.map (eventSummaryFor year_data team driver)).filterMap
            (fun s => s.teammateGap)
        completeDataCount := acc.completeDataCount +
          (l.map (eventSummaryFor year_data team driver)).countP
            (fun s => s.teammateGap.isSome)
        totalEvents := acc.totalEvents + l.length } := by
  induction l generalizing acc with
  | nil => simp
  | cons e l ih =>
    rw [List.foldl_cons, ih]
    simp only [accumulateEvent, List.map_cons, filterMap_cons_toList,
      List.countP_cons, List.length_cons, List.append_assoc,
      List.singleton_append, List.map_map, DriverEntryAcc.mk.injEq]
    exact ⟨trivial, trivial, trivial, trivial, trivial, trivial, trivial,
      by omega, by omega⟩

/-- `buildDriverEntry`, in closed form. -/
theorem buildDriverEntry_eq (year : Int) (driver team : String)
    (year_data : List Row) (all_events : List String) :
    buildDriverEntry year driver team year_data all_events =
      { year := year
        driver := driver
        team := team
        events := all_events.map (eventSummaryFor year_data team driver)
        avgQualifyingPosition := optionalMean
          ((all_events.map (eventSummaryFor year_data team driver)).filterMap
            (fun s => s.position))
        avgGapToPole := optionalMean
          ((all_events.map (eventSummaryFor year_data team driver)).filterMap
            (fun s => s.gapToPole))
        avgTeammateGap := optionalMean
          ((all_events.map (eventSummaryFor year_data team driver)).filterMap
            (fun s => s.teammateGap))
        dataCompleteness :=
          if 0 < all_events.length then
            (((all_events.map (eventSummaryFor year_data team driver)).countP
                (fun s => s.teammateGap.isSome) : ℚ)) /
              (all_events.length : ℚ)
          else 0 } := by
  unfold buildDriverEntry
  rw [foldl_accumulateEvent]
  simp [finalizeEntry, create_driver_entry, List.filterMap_map,
    Function.comp_def]

/-- Every entry of the output is the built entry of some driver-season
whose team mapping resolved. -/
theorem mem_process_qualifying_data
    {enum : List String → List String} {quali_data : List Row}
    {entry : DriverSeasonEntry}
    (h : entry ∈ process_qualifying_data enum quali_data) :
    ∃ year driver team,
      driverTeamMapping quali_data year driver = some team ∧
      entry = buildDriverEntry year driver team
        (quali_data.filter (fun r => r.year == year))
        (uniqueFirst ((quali_data.filter (fun r => r.year == year)).map
          (fun r => r.eventName))) := by
  unfold process_qualifying_data at h
  rw [List.mem_flatMap] at h
  obtain ⟨year, _, h⟩ := h
  unfold processYear at h
  rw [List.mem_filterMap] at h
  obtain ⟨driver, _, h⟩ := h
  cases hmap : driverTeamMapping quali_data year driver with
  | none => rw [hmap] at h; simp at h
  | some team =>
    rw [hmap] at h
    refine ⟨year, driver, team, hmap, ?_⟩
    injection h with h
    exact h.symm

/-! ## Concrete fixture rows used by the witnesses -/

/-- Row constructor for fixtures whose raw duration strings are unused. -/
def mkRow (num : Int) (name team : String) (pos : Option ℚ) (year : Int)
    (event : String) (q1s q2s q3s : Option ℚ) : Row :=
  { driverNumber := num, broadcastName := name, teamName := team,
    position := pos, q1 := none, q2 := none, q3 := none,
    year := year, eventName := event, wetSession := false,
    q1Seconds := q1s, q2Seconds := q2s, q3Seconds := q3s }

/-- Default entry used by `List.headD` in witnesses. -/
def defaultEntry : DriverSeasonEntry :=
  finalizeEntry (create_driver_entry 0 "" "")

/-- Default event summary for `List.getD` in statements. -/
def emptySummary : EventSummary :=
  create_event_summary "" none none none

/-! ## C1 — gap to pole -/

/-- C1: `calculate_gap_to_pole` returns null when the position is null;
returns exactly 0 when the position is 1, regardless of the best and pole
times; returns null when the position is not 1 and the best time or pole
time is null; and otherwise returns best time minus pole time. -/
theorem C1_calculate_gap_to_pole_spec (b pl : Option ℚ) :
    calculate_gap_to_pole none b pl = none ∧
    calculate_gap_to_pole (some 1) b pl = some 0 ∧
    (∀ p : ℚ, p ≠ 1 → b = none ∨ pl = none →
      calculate_gap_to_pole (some p) b pl = none) ∧
    (∀ p tb tp : ℚ, p ≠ 1 →
      calculate_gap_to_pole (some p) (some tb) (some tp) = some (tb - tp)) := by
  refine ⟨rfl, by simp [calculate_gap_to_pole], ?_, ?_⟩
  · intro p hp hnull
    rcases hnull with rfl | rfl
    · cases pl <;> simp [calculate_gap_to_pole, hp]
    · cases b <;> simp [calculate_gap_to_pole, hp]
  · intro p tb tp hp
    simp [calculate_gap_to_pole, hp]

/-- C1 witness: a position-2 driver with both times present gets the
difference of the times. -/
theorem C1_witness :
    calculate_gap_to_pole (some 2) (some 90) (some 88) = some ((90 : ℚ) - 88) :=
  (C1_calculate_gap_to_pole_spec (some 90) (some 88)).2.2.2 2 90 88
    (by norm_num)

/-! ## C2 — teammate gaps -/

/-- C2: with exactly two distinct drivers in the team's event rows and
both best times present, the gaps are the two opposite differences; with a
missing best time both gaps are null; with any other number of drivers
every gap is null; and a null gap always yields `hasTeammateData = false`
in the event summary. -/
theorem C2_calculate_teammate_gaps_spec (team_data : List Row) :
    (∀ d1 d2 r1 r2 t1 t2,
      uniqueFirst (team_data.map (fun r => r.broadcastName)) = [d1, d2] →
      (team_data.filter (fun r => r.broadcastName == d1)).head? = some r1 →
      (team_data.filter (fun r => r.broadcastName == d2)).head? = some r2 →
      get_best_time r1 = some t1 → get_best_time r2 = some t2 →
      calculate_teammate_gaps team_data d1 = some (t1 - t2) ∧
      calculate_teammate_gaps team_data d2 = some (t2 - t1)) ∧
    (∀ d1 d2 r1 r2,
      uniqueFirst (team_data.map (fun r => r.broadcastName)) = [d1, d2] →
      (team_data.filter (fun r => r.broadcastName == d1)).head? = some r1 →
      (team_data.filter (fun r => r.broadcastName == d2)).head? = some r2 →
      get_best_time r1 = none ∨ get_best_time r2 = none →
      ∀ d, calculate_teammate_gaps team_data d = none) ∧
    ((uniqueFirst (team_data.map (fun r => r.broadcastName))).length ≠ 2 →
      ∀ d, calculate_teammate_gaps team_data d = none) ∧
    (∀ e p g d, calculate_teammate_gaps team_data d = none →
      (create_event_summary e p g
        (calculate_teammate_gaps team_data d)).hasTeammateData = false) := by
  refine ⟨?_, ?_, ?_, ?_⟩
  · intro d1 d2 r1 r2 t1 t2 hu h1 h2 hb1 hb2
    have hnodup := nodup_uniqueFirst (team_data.map (fun r => r.broadcastName))
    rw [hu] at hnodup
    have hne : d1 ≠ d2 := by
      simp only [List.nodup_cons, List.mem_singleton] at hnodup
      exact hnodup.1
    simp only [calculate_teammate_gaps, hu, h1, h2, hb1, hb2]
    constructor
    · simp
    · simp [Ne.symm hne]
  · intro d1 d2 r1 r2 hu h1 h2 hnull d
    rcases hnull with hb | hb
    · simp [calculate_teammate_gaps, hu, h1, h2, hb]
    · cases hb1 : get_best_time r1 <;>
        simp [calculate_teammate_gaps, hu, h1, h2, hb, hb1]
  · intro hlen d
    cases hu : uniqueFirst (team_data.map (fun r => r.broadcastName)) with
    | nil => simp [calculate_teammate_gaps, hu]
    | cons d1 rest =>
      cases rest with
      | nil => simp [calculate_teammate_gaps, hu]
      | cons d2 rest2 =>
        cases rest2 with
        | nil => rw [hu] at hlen; simp at hlen
        | cons d3 rest3 => simp [calculate_teammate_gaps, hu]
  · intro e p g d h
    simp [create_event_summary, h]

/-- Fixture: a two-driver team at one event. -/
def c2rowA : Row := mkRow 1 "A" "T" (some 1) 2022 "E" none none (some 90)

/-- Fixture: the second driver of the two-driver team. -/
def c2rowB : Row := mkRow 2 "B" "T" (some 2) 2022 "E" none none (some 91)

/-- C2 witness: on the concrete two-driver team, driver A's gap is
90 − 91 and driver B's gap is 91 − 90. -/
theorem C2_witness :
    calculate_teammate_gaps [c2rowA, c2rowB] "A" = some ((90 : ℚ) - 91) ∧
    calculate_teammate_gaps [c2rowA, c2rowB] "B" = some ((91 : ℚ) - 90) :=
  (C2_calculate_teammate_gaps_spec [c2rowA, c2rowB]).1 "A" "B" c2rowA c2rowB
    90 91 (by decide) (by decide) (by decide) (by decide) (by decide)

/-! ## C3 — pole time -/

/-- Fixture: the position-1 row of an event, with no Q3 time but a Q2
time, so its representative best time is 90 while its Q3 seconds are
null. -/
def c3pole : Row := mkRow 1 "P" "T" (some 1) 2022 "E" (some 92) (some 90) none

/-- Fixture: a position-2 rival at the same event with a valid best
time. -/
def c3rival : Row := mkRow 2 "R" "T" (some 2) 2022 "E" none none (some 91)

/-- C3 counterexample: the pole time the engine uses is
`pole_data.iloc[0]['Q3Seconds']`, not the representative best time of the
position-1 competitor.  With the pole sitter's Q3 null but Q2 = 90, the
pole time is null and the rival's gap to pole is null, although the claim
demands pole time 90 and gap 91 − 90. -/
theorem C3_counterexample :
    c3pole.position = some 1 ∧
    get_best_time c3pole = some 90 ∧
    eventPoleTime [c3pole, c3rival] = none ∧
    get_best_time c3rival = some 91 ∧
    (eventSummaryFor [c3pole, c3rival] "T" "R" "E").gapToPole = none := by
  refine ⟨rfl, rfl, rfl, rfl, ?_⟩
  decide

/-- C3 amended: the pole time for an event is the Q3 seconds of the first
row with position 1 (not the representative best time); if no row has
position 1, the pole time is null and every driver's gap to pole at that
event is null (no exception can arise: a driver with position 1 would be
in the pole filter); and whenever the pole time is null — also when the
position-1 competitor merely has no Q3 time — every driver's gap to pole
is null except the forced-zero case for position 1. -/
theorem C3_amended_poleTime (year_data : List Row) (team driver e : String) :
    (∀ r, ((year_data.filter (fun r => r.eventName == e)).filter
        (fun r => r.position == some 1)).head? = some r →
      eventPoleTime (year_data.filter (fun r => r.eventName == e)) =
        r.q3Seconds) ∧
    ((year_data.filter (fun r => r.eventName == e)).filter
        (fun r => r.position == some 1) = [] →
      (eventSummaryFor year_data team driver e).gapToPole = none) ∧
    (eventPoleTime (year_data.filter (fun r => r.eventName == e)) = none →
      (eventSummaryFor year_data team driver e).gapToPole = none ∨
      ((eventSummaryFor year_data team driver e).position = some 1 ∧
        (eventSummaryFor year_data team driver e).gapToPole = some 0)) := by
  refine ⟨?_, ?_, ?_⟩
  · intro r hr
    simp only [eventPoleTime, hr]
  · intro hempty
    simp only [eventSummaryFor]
    cases hdd : ((year_data.filter (fun r => r.eventName == e)).filter
        (fun r => r.broadcastName == driver)).head? with
    | none => simp [create_event_summary]
    | some dd =>
      have hmem1 : dd ∈ (year_data.filter (fun r => r.eventName == e)).filter
          (fun r => r.broadcastName == driver) :=
        List.mem_of_mem_head? (by rw [hdd]; simp)
      have hmem2 : dd ∈ year_data.filter (fun r => r.eventName == e) :=
        (List.mem_filter.mp hmem1).1
      have hpos : dd.position ≠ some 1 := by
        intro hp
        have : dd ∈ (year_data.filter (fun r => r.eventName == e)).filter
            (fun r => r.position == some 1) :=
          List.mem_filter.mpr ⟨hmem2, by simp [hp]⟩
        rw [hempty] at this
        exact (List.not_mem_nil dd) this
      have hpole : eventPoleTime (year_data.filter (fun r => r.eventName == e)) =
          none := by
        simp only [eventPoleTime, hempty, List.head?_nil]
      rw [hpole]
      simp only [create_event_summary]
      cases hp : dd.position with
      | none => simp [calculate_gap_to_pole]
      | some p =>
        have hp1 : p ≠ 1 := fun h1 => hpos (by rw [hp, h1])
        cases hbt : get_best_time dd <;> simp [calculate_gap_to_pole, hp1]
  · intro hpolenull
    simp only [eventSummaryFor]
    cases hdd : ((year_data.filter (fun r => r.eventName == e)).filter
        (fun r => r.broadcastName == driver)).head? with
    | none =>
      left
      simp [create_event_summary]
    | some dd =>
      rw [hpolenull]
      simp only [create_event_summary]
      cases hp : dd.position with
      | none =>
        left
        simp [calculate_gap_to_pole]
      | some p =>
        by_cases hp1 : p = 1
        · right
          subst hp1
          exact ⟨rfl, by simp [calculate_gap_to_pole]⟩
        · left
          cases hbt : get_best_time dd <;> simp [calculate_gap_to_pole, hp1]

/-- Fixture: an event whose only row has position 2, so no pole exists. -/
def c3nopole : Row := mkRow 3 "R" "T" (some 2) 2022 "E" none none (some 91)

/-- C3 witness: with no position-1 row, the driver's gap to pole is null;
and on the fixture whose pole sitter has no Q3 time (null pole time), the
pole sitter's own summary falls under the forced-zero exception. -/
theorem C3_amended_witness :
    (eventSummaryFor [c3nopole] "T" "R" "E").gapToPole = none ∧
    ((eventSummaryFor [c3pole, c3rival] "T" "P" "E").gapToPole = none ∨
      ((eventSummaryFor [c3pole, c3rival] "T" "P" "E").position = some 1 ∧
        (eventSummaryFor [c3pole, c3rival] "T" "P" "E").gapToPole = some 0)) :=
  ⟨(C3_amended_poleTime [c3nopole] "T" "R" "E").2.1 (by decide),
    (C3_amended_poleTime [c3pole, c3rival] "T" "P" "E").2.2 (by decide)⟩

/-! ## C4 — time conversion -/

/-- A raw duration cell is well formed when it is absent or parses. -/
def wfDuration (o : Option String) : Prop :=
  ∀ s, o = some s → (parse_timedelta_seconds s).isSome

theorem convertField_of_wf {o : Option String} (h : wfDuration o) :
    convertField o = Except.ok (o.bind parse_timedelta_seconds) := by
  cases o with
  | none => rfl
  | some s =>
    have hs := h s rfl
    cases hp : parse_timedelta_seconds s with
    | none => rw [hp] at hs; simp at hs
    | some q => simp [convertField, hp]

theorem convertRow_of_wf {r : Row} (h1 : wfDuration r.q1)
    (h2 : wfDuration r.q2) (h3 : wfDuration r.q3) :
    convertRow r = Except.ok
      { r with q1Seconds := r.q1.bind parse_timedelta_seconds,
               q2Seconds := r.q2.bind parse_timedelta_seconds,
               q3Seconds := r.q3.bind parse_timedelta_seconds } := by
  unfold convertRow
  rw [convertField_of_wf h1, convertField_of_wf h2, convertField_of_wf h3]
  rfl

/-- Fixture: a row whose Q1 duration string is unparsable. -/
def c4bad : Row :=
  { driverNumber := 1, broadcastName := "A", teamName := "T",
    position := some 1, q1 := some "garbage", q2 := none, q3 := none,
    year := 2022, eventName := "E", wetSession := false,
    q1Seconds := none, q2Seconds := none, q3Seconds := none }

/-- C4 counterexample: on a table containing a malformed duration string
the conversion raises (returns an error) instead of yielding null, so
"maps any unparsable duration string to null and never raises" fails. -/
theorem C4_counterexample :
    convert_time [c4bad] = Except.error "garbage" := rfl

/-- C4 amended: absent duration cells map to null seconds and parsable
duration strings to their seconds, with no error; but an unparsable,
non-absent duration string makes the conversion raise an error (the
original claim's "malformed input yields null, never an error" holds only
for absent cells). -/
theorem C4_amended (df : List Row)
    (h : ∀ r ∈ df, wfDuration r.q1 ∧ wfDuration r.q2 ∧ wfDuration r.q3) :
    convert_time df = Except.ok (df.map (fun r =>
      { r with q1Seconds := r.q1.bind parse_timedelta_seconds,
               q2Seconds := r.q2.bind parse_timedelta_seconds,
               q3Seconds := r.q3.bind parse_timedelta_seconds })) := by
  induction df with
  | nil => rfl
  | cons r df ih =>
    have hr := h r (List.mem_cons_self r df)
    have hdf := ih (fun x hx => h x (List.mem_cons_of_mem r hx))
    unfold convert_time at hdf ⊢
    rw [List.mapM_cons, convertRow_of_wf hr.1 hr.2.1 hr.2.2, hdf]
    rfl

/-- Fixture: a row with one well-formed duration string and two absent
cells. -/
def c4good : Row :=
  { driverNumber := 1, broadcastName := "A", teamName := "T",
    position := some 1, q1 := some "0 days 00:01:31.500000", q2 := none,
    q3 := none, year := 2022, eventName := "E", wetSession := false,
    q1Seconds := none, q2Seconds := none, q3Seconds := none }

/-- C4 witness: the conversion succeeds on the well-formed row, turning
the parsable Q1 cell into its seconds and the absent cells into nulls. -/
theorem C4_witness :
    convert_time [c4good] = Except.ok ([c4good].map (fun r =>
      { r with q1Seconds := r.q1.bind parse_timedelta_seconds,
               q2Seconds := r.q2.bind parse_timedelta_seconds,
               q3Seconds := r.q3.bind parse_timedelta_seconds })) :=
  C4_amended [c4good] (by
    intro r hr
    rw [List.mem_singleton] at hr
    subst hr
    refine ⟨?_, ?_, ?_⟩
    · intro s hs
      cases hs
      rfl
    · intro s hs
      exact Option.noConfusion hs
    · intro s hs
      exact Option.noConfusion hs)

/-! ## C5 — run-to-run determinism -/

theorem flatMap_perm_of_forall_perm {α β : Type} (l : List α)
    (f g : α → List β) (h : ∀ a, (f a).Perm (g a)) :
    (l.flatMap f).Perm (l.flatMap g) := by
  induction l with
  | nil => simp
  | cons a l ih =>
    rw [List.flatMap_cons, List.flatMap_cons]
    exact (h a).append ih

/-- Fixture: a one-event season with two drivers on distinct teams. -/
def c5table : List Row :=
  [ mkRow 1 "A" "T1" (some 1) 2022 "E1" none none (some 90),
    mkRow 2 "B" "T2" (some 2) 2022 "E1" none none (some 91) ]

/-- C5 counterexample: the entry order of the output depends on the
iteration order of `set(year_data['BroadcastName'].unique())`, which
Python does not determine from the input (string hash randomization
varies across interpreter runs).  Two valid iteration orders of the same
driver set produce different output lists, so byte-identical output
across repeated runs fails. -/
theorem C5_counterexample :
    process_qualifying_data id c5table ≠
      process_qualifying_data (fun l => l.reverse) c5table := by
  decide

/-- C5 amended: for a fixed driver iteration order the pipeline is a pure
function of the table, and any two driver iteration orders that enumerate
the same drivers give outputs that are permutations of each other (the
per-driver entries are run-independent; only their order can vary). -/
theorem C5_amended (enum1 enum2 : List String → List String)
    (quali_data : List Row) (h : ∀ l, (enum1 l).Perm (enum2 l)) :
    (process_qualifying_data enum1 quali_data).Perm
      (process_qualifying_data enum2 quali_data) := by
  unfold process_qualifying_data
  refine flatMap_perm_of_forall_perm _ _ _ (fun year => ?_)
  unfold processYear
  exact List.Perm.filterMap _ (h _)

/-- C5 witness: with the same enumeration order on both sides the outputs
agree up to permutation (here: are equal lists). -/
theorem C5_witness :
    (process_qualifying_data id c5table).Perm
      (process_qualifying_data id c5table) :=
  C5_amended id id c5table (fun l => List.Perm.refl (id l))

/-! ## Projections of `buildDriverEntry` -/

theorem buildDriverEntry_year (year : Int) (driver team : String)
    (year_data : List Row) (all_events : List String) :
    (buildDriverEntry year driver team year_data all_events).year = year := by
  rw [buildDriverEntry_eq]

theorem buildDriverEntry_driver (year : Int) (driver team : String)
    (year_data : List Row) (all_events : List String) :
    (buildDriverEntry year driver team year_data all_events).driver = driver := by
  rw [buildDriverEntry_eq]

theorem buildDriverEntry_team (year : Int) (driver team : String)
    (year_data : List Row) (all_events : List String) :
    (buildDriverEntry year driver team year_data all_events).team = team := by
  rw [buildDriverEntry_eq]

theorem buildDriverEntry_events (year : Int) (driver team : String)
    (year_data : List Row) (all_events : List String) :
    (buildDriverEntry year driver team year_data all_events).events =
      all_events.map (eventSummaryFor year_data team driver) := by
  rw [buildDriverEntry_eq]

theorem buildDriverEntry_avgPos (year : Int) (driver team : String)
    (year_data : List Row) (all_events : List String) :
    (buildDriverEntry year driver team year_data all_events).avgQualifyingPosition =
      optionalMean
        ((all_events.map (eventSummaryFor year_data team driver)).filterMap
          (fun s => s.position)) := by
  rw [buildDriverEntry_eq]

theorem buildDriverEntry_avgGap (year : Int) (driver team : String)
    (year_data : List Row) (all_events : List String) :
    (buildDriverEntry year driver team year_data all_events).avgGapToPole =
      optionalMean
        ((all_events.map (eventSummaryFor year_data team driver)).filterMap
          (fun s => s.gapToPole)) := by
  rw [buildDriverEntry_eq]

theorem buildDriverEntry_avgTeammate (year : Int) (driver team : String)
    (year_data : List Row) (all_events : List String) :
    (buildDriverEntry year driver team year_data all_events).avgTeammateGap =
      optionalMean
        ((all_events.map (eventSummaryFor year_data team driver)).filterMap
          (fun s => s.teammateGap)) := by
  rw [buildDriverEntry_eq]

theorem buildDriverEntry_completeness (year : Int) (driver team : String)
    (year_data : List Row) (all_events : List String) :
    (buildDriverEntry year driver team year_data all_events).dataCompleteness =
      if 0 < all_events.length then
        (((all_events.map (eventSummaryFor year_data team driver)).countP
            (fun s => s.teammateGap.isSome) : ℚ)) / (all_events.length : ℚ)
      else 0 := by
  rw [buildDriverEntry_eq]

/-! ## C6 — seasonal averages -/

/-- C6: each aggregate of an output entry is the arithmetic mean of the
non-null values of the corresponding event field, and is null (not zero)
when no valid value exists. -/
theorem C6_averages (enum : List String → List String)
    (quali_data : List Row) (entry : DriverSeasonEntry)
    (h : entry ∈ process_qualifying_data enum quali_data) :
    (entry.avgQualifyingPosition =
        optionalMean (entry.events.filterMap (fun s => s.position)) ∧
      (entry.events.filterMap (fun s => s.position) = [] →
        entry.avgQualifyingPosition = none)) ∧
    (entry.avgGapToPole =
        optionalMean (entry.events.filterMap (fun s => s.gapToPole)) ∧
      (entry.events.filterMap (fun s => s.gapToPole) = [] →
        entry.avgGapToPole = none)) ∧
    (entry.avgTeammateGap =
        optionalMean (entry.events.filterMap (fun s => s.teammateGap)) ∧
      (entry.events.filterMap (fun s => s.teammateGap) = [] →
        entry.avgTeammateGap = none)) := by
  obtain ⟨year, driver, team, hmap, rfl⟩ := mem_process_qualifying_data h
  have hmean : ∀ l : List ℚ, l = [] → optionalMean l = none := by
    intro l hl
    simp [optionalMean, hl]
  rw [buildDriverEntry_events, buildDriverEntry_avgPos, buildDriverEntry_avgGap,
    buildDriverEntry_avgTeammate]
  exact ⟨⟨rfl, hmean _⟩, ⟨rfl, hmean _⟩, ⟨rfl, hmean _⟩⟩

/-- Fixture: a two-driver, two-event season; driver A is absent from the
middle event. -/
def c6table : List Row :=
  [ mkRow 1 "A" "T" (some 1) 2022 "E1" none none (some 90),
    mkRow 2 "B" "T" (some 2) 2022 "E1" none none (some 91),
    mkRow 2 "B" "T" (some 1) 2022 "E2" none none (some 89),
    mkRow 1 "A" "T" (some 2) 2022 "E3" none (some 92) none,
    mkRow 2 "B" "T" (some 1) 2022 "E3" none none (some 90) ]

/-- First output entry of the fixture season (driver A). -/
def c6entry : DriverSeasonEntry :=
  (process_qualifying_data id c6table).headD defaultEntry

/-- C6 witness: the averages of the concrete first entry are the means of
its non-null event values. -/
theorem C6_witness :
    (c6entry.avgQualifyingPosition =
        optionalMean (c6entry.events.filterMap (fun s => s.position)) ∧
      (c6entry.events.filterMap (fun s => s.position) = [] →
        c6entry.avgQualifyingPosition = none)) ∧
    (c6entry.avgGapToPole =
        optionalMean (c6entry.events.filterMap (fun s => s.gapToPole)) ∧
      (c6entry.events.filterMap (fun s => s.gapToPole) = [] →
        c6entry.avgGapToPole = none)) ∧
    (c6entry.avgTeammateGap =
        optionalMean (c6entry.events.filterMap (fun s => s.teammateGap)) ∧
      (c6entry.events.filterMap (fun s => s.teammateGap) = [] →
        c6entry.avgTeammateGap = none)) :=
  C6_averages id c6table c6entry (by decide)

/-! ## C7 — data completeness -/

theorem countP_hasTeammateData (year_data : List Row) (team driver : String)
    (l : List String) :
    (l.map (eventSummaryFor year_data team driver)).countP
        (fun s => s.hasTeammateData) =
      (l.map (eventSummaryFor year_data team driver)).countP
        (fun s => s.teammateGap.isSome) := by
  refine List.countP_congr ?_
  intro s hs
  obtain ⟨e, he, rfl⟩ := List.mem_map.mp hs
  rw [hasTeammateData_eventSummaryFor]

/-- C7: `dataCompleteness` is the number of events with a valid teammate
comparison divided by the number of events, is 0 for an empty season, and
always lies in [0, 1]. -/
theorem C7_dataCompleteness (enum : List String → List String)
    (quali_data : List Row) (entry : DriverSeasonEntry)
    (h : entry ∈ process_qualifying_data enum quali_data) :
    entry.dataCompleteness =
      (if 0 < entry.events.length then
        ((entry.events.countP (fun s => s.hasTeammateData) : ℚ) /
          (entry.events.length : ℚ))
      else 0) ∧
    0 ≤ entry.dataCompleteness ∧ entry.dataCompleteness ≤ 1 := by
  obtain ⟨year, driver, team, hmap, rfl⟩ := mem_process_qualifying_data h
  rw [buildDriverEntry_events, buildDriverEntry_completeness]
  rw [List.length_map, countP_hasTeammateData]
  refine ⟨rfl, ?_, ?_⟩
  · split
    · exact div_nonneg (Nat.cast_nonneg _) (Nat.cast_nonneg _)
    · exact le_refl 0
  · split
    · rename_i hn
      rw [div_le_one (by exact_mod_cast hn)]
      have hc := List.countP_le_length (fun s => s.teammateGap.isSome)
        (l := (uniqueFirst ((quali_data.filter (fun r => r.year == year)).map
          (fun r => r.eventName))).map (eventSummaryFor
            (quali_data.filter (fun r => r.year == year)) team driver))
      rw [List.length_map] at hc
      exact_mod_cast hc
    · exact zero_le_one

/-- Second output entry of the fixture season (driver B with three
events). -/
def c7entry : DriverSeasonEntry :=
  ((process_qualifying_data id c6table).drop 1).headD defaultEntry

/-- C7 witness: the concrete entry's completeness is its teammate-data
count over its event count and lies in [0, 1]. -/
theorem C7_witness :
    c7entry.dataCompleteness =
      (if 0 < c7entry.events.length then
        ((c7entry.events.countP (fun s => s.hasTeammateData) : ℚ) /
          (c7entry.events.length : ℚ))
      else 0) ∧
    0 ≤ c7entry.dataCompleteness ∧ c7entry.dataCompleteness ≤ 1 :=
  C7_dataCompleteness id c6table c7entry (by decide)

/-! ## C8 — event enumeration and order -/

theorem map_round_eventSummaryFor (year_data : List Row) (team driver : String)
    (l : List String) :
    (l.map (eventSummaryFor year_data team driver)).map (fun s => s.round) =
      l := by
  rw [List.map_map]
  have hfun : ((fun s => s.round) ∘ eventSummaryFor year_data team driver) =
      fun e => e := by
    funext e
    exact round_eventSummaryFor year_data team driver e
  rw [hfun]
  exact List.map_id' l

/-- C8: every output entry's event list is exactly the distinct events of
its season in first-encounter order of the input table; it has no
duplicates; an event appears in it exactly when the season has a row for
it; and entries of the same season list the same events in the same
order. -/
theorem C8_event_order (enum : List String → List String)
    (quali_data : List Row) (entry : DriverSeasonEntry)
    (h : entry ∈ process_qualifying_data enum quali_data) :
    entry.events.map (fun s => s.round) =
      uniqueFirst ((quali_data.filter (fun r => r.year == entry.year)).map
        (fun r => r.eventName)) ∧
    (entry.events.map (fun s => s.round)).Nodup ∧
    (∀ e, e ∈ entry.events.map (fun s => s.round) ↔
      ∃ r ∈ quali_data, r.year = entry.year ∧ r.eventName = e) ∧
    (∀ entry2 ∈ process_qualifying_data enum quali_data,
      entry2.year = entry.year →
      entry2.events.map (fun s => s.round) =
        entry.events.map (fun s => s.round)) := by
  obtain ⟨year, driver, team, hmap, rfl⟩ := mem_process_qualifying_data h
  rw [buildDriverEntry_events, buildDriverEntry_year,
    map_round_eventSummaryFor]
  refine ⟨rfl, nodup_uniqueFirst _, ?_, ?_⟩
  · intro e
    simp only [mem_uniqueFirst, List.mem_map, List.mem_filter, beq_iff_eq]
    constructor
    · rintro ⟨r, ⟨h1, h2⟩, h3⟩
      exact ⟨r, h1, h2, h3⟩
    · rintro ⟨r, h1, h2, h3⟩
      exact ⟨r, ⟨h1, h2⟩, h3⟩
  · intro entry2 h2 hy2
    obtain ⟨year2, driver2, team2, hmap2, rfl⟩ := mem_process_qualifying_data h2
    rw [buildDriverEntry_year] at hy2
    subst hy2
    rw [buildDriverEntry_events, map_round_eventSummaryFor]

/-- First output entry of the fixture season, for the event-order
witness. -/
def c8entry : DriverSeasonEntry :=
  (process_qualifying_data id c6table).headD defaultEntry

/-- C8 witness: the concrete entry lists the season's distinct events in
first-encounter order, without duplicates, and every same-season entry
lists the same events. -/
theorem C8_witness :
    c8entry.events.map (fun s => s.round) =
      uniqueFirst ((c6table.filter (fun r => r.year == c8entry.year)).map
        (fun r => r.eventName)) ∧
    (c8entry.events.map (fun s => s.round)).Nodup ∧
    (∀ e, e ∈ c8entry.events.map (fun s => s.round) ↔
      ∃ r ∈ c6table, r.year = c8entry.year ∧ r.eventName = e) ∧
    (∀ entry2 ∈ process_qualifying_data id c6table,
      entry2.year = c8entry.year →
      entry2.events.map (fun s => s.round) =
        c8entry.events.map (fun s => s.round)) :=
  C8_event_order id c6table c8entry (by decide)

/-! ## C10 — teammate gaps use the first-seen season team -/

theorem gaps_none_of_not_mem (team_data : List Row) (d : String)
    (hd : d ∉ team_data.map (fun r => r.broadcastName)) :
    calculate_teammate_gaps team_data d = none := by
  cases hu : uniqueFirst (team_data.map (fun r => r.broadcastName)) with
  | nil => simp [calculate_teammate_gaps, hu]
  | cons d1 rest =>
    cases rest with
    | nil => simp [calculate_teammate_gaps, hu]
    | cons d2 rest2 =>
      cases rest2 with
      | cons d3 rest3 => simp [calculate_teammate_gaps, hu]
      | nil =>
        have h1 : d1 ∈ team_data.map (fun r => r.broadcastName) := by
          rw [← mem_uniqueFirst (l := team_data.map (fun r => r.broadcastName))]
          rw [hu]
          simp
        have h2 : d2 ∈ team_data.map (fun r => r.broadcastName) := by
          rw [← mem_uniqueFirst (l := team_data.map (fun r => r.broadcastName))]
          rw [hu]
          simp
        have hd1 : d ≠ d1 := fun he => hd (he ▸ h1)
        have hd2 : d ≠ d2 := fun he => hd (he ▸ h2)
        rcases hh1 : (team_data.filter (fun r => r.broadcastName == d1)).head?
          with _ | r1
        · simp [calculate_teammate_gaps, hu, hh1]
        · rcases hh2 : (team_data.filter (fun r => r.broadcastName == d2)).head?
            with _ | r2
          · simp [calculate_teammate_gaps, hu, hh1, hh2]
          · rcases hb1 : get_best_time r1 with _ | t1
            · simp [calculate_teammate_gaps, hu, hh1, hh2, hb1]
            · rcases hb2 : get_best_time r2 with _ | t2
              · simp [calculate_teammate_gaps, hu, hh1, hh2, hb1, hb2]
              · simp [calculate_teammate_gaps, hu, hh1, hh2, hb1, hb2,
                  hd1, hd2]

/-- If every row of the driver at the event carries a team other than
`team`, the driver's event summary has a null teammate gap and
`hasTeammateData = false`. -/
theorem teammateGap_none_of_team_mismatch (year_data : List Row)
    (team driver e : String)
    (hd : ∀ r ∈ year_data, r.eventName = e → r.broadcastName = driver →
      r.teamName ≠ team) :
    (eventSummaryFor year_data team driver e).teammateGap = none ∧
    (eventSummaryFor year_data team driver e).hasTeammateData = false := by
  simp only [eventSummaryFor]
  cases hdd : ((year_data.filter (fun r => r.eventName == e)).filter
      (fun r => r.broadcastName == driver)).head? with
  | none => simp [create_event_summary]
  | some dd =>
    have hnot : driver ∉ ((year_data.filter (fun r => r.eventName == e)).filter
        (fun r => r.teamName == team)).map (fun r => r.broadcastName) := by
      intro hmem
      obtain ⟨r, hr, hname⟩ := List.mem_map.mp hmem
      have hr2 := List.mem_filter.mp hr
      have hr3 := List.mem_filter.mp hr2.1
      refine hd r hr3.1 ?_ hname ?_
      · simpa using hr3.2
      · simpa using hr2.2
    have hgap := gaps_none_of_not_mem _ _ hnot
    simp only [create_event_summary]
    constructor
    · exact hgap
    · rw [hgap]
      rfl

/-- C10 (implicit behavior): teammate gaps at an event are computed over
the rows of the driver's first-seen team of the season, so at an event
where all of the driver's rows carry a different team than the entry's
(first-seen) team, the teammate gap is null and `hasTeammateData` is
false — even if the driver and a new teammate both have valid times. -/
theorem C10_first_seen_team (enum : List String → List String)
    (quali_data : List Row) (entry : DriverSeasonEntry)
    (h : entry ∈ process_qualifying_data enum quali_data) (i : Nat)
    (hi : i < entry.events.length)
    (hdiff : ∀ r ∈ quali_data, r.year = entry.year →
      r.broadcastName = entry.driver →
      r.eventName = (entry.events.getD i emptySummary).round →
      r.teamName ≠ entry.team) :
    (entry.events.getD i emptySummary).teammateGap = none ∧
    (entry.events.getD i emptySummary).hasTeammateData = false ∧
    driverTeamMapping quali_data entry.year entry.driver = some entry.team := by
  obtain ⟨year, driver, team, hmap, rfl⟩ := mem_process_qualifying_data h
  rw [buildDriverEntry_events] at hi hdiff ⊢
  rw [buildDriverEntry_year, buildDriverEntry_driver, buildDriverEntry_team]
    at hdiff ⊢
  rw [List.length_map] at hi
  rw [List.getD_eq_getElem _ _ (by rw [List.length_map]; exact hi),
    List.getElem_map] at hdiff ⊢
  rw [round_eventSummaryFor] at hdiff
  set e := (uniqueFirst ((quali_data.filter (fun r => r.year == year)).map
    (fun r => r.eventName)))[i]
  have hd : ∀ r ∈ quali_data.filter (fun r => r.year == year),
      r.eventName = e → r.broadcastName = driver → r.teamName ≠ team := by
    intro r hr he hn
    have hr2 := List.mem_filter.mp hr
    exact hdiff r hr2.1 (by simpa using hr2.2) hn he
  have hmain := teammateGap_none_of_team_mismatch
    (quali_data.filter (fun r => r.year == year)) team driver e hd
  exact ⟨hmain.1, hmain.2, hmap⟩

/-- Fixture: driver D moves from team T1 (event E1) to team T2 (event
E2); driver X is on T2 at both events with valid times. -/
def c10table : List Row :=
  [ mkRow 1 "D" "T1" (some 1) 2024 "E1" none none (some 90),
    mkRow 2 "X" "T2" (some 2) 2024 "E1" none none (some 91),
    mkRow 1 "D" "T2" (some 1) 2024 "E2" none none (some 89),
    mkRow 2 "X" "T2" (some 2) 2024 "E2" none none (some 92) ]

/-- Driver D's entry (first in the output). -/
def c10entry : DriverSeasonEntry :=
  (process_qualifying_data id c10table).headD defaultEntry

/-- C10 witness: at event E2, where driver D's recorded team T2 is not
the first-seen team T1, the teammate gap is null and the teammate flag is
false although D and X both have valid best times there. -/
theorem C10_witness :
    (c10entry.events.getD 1 emptySummary).teammateGap = none ∧
    (c10entry.events.getD 1 emptySummary).hasTeammateData = false ∧
    driverTeamMapping c10table c10entry.year c10entry.driver =
      some c10entry.team :=
  C10_first_seen_team id c10table c10entry (by decide) 1 (by decide)
    (by decide)

/-! ## C9 — stint segmentation (spec-modelled) -/

/-- Stint metadata attached to a stint entry. -/
structure TeamStintInfo where
  eventRange : String
  start_event : String
  end_event : String
deriving DecidableEq

/-- A driver-season entry scoped to one contiguous team stint. -/
structure DriverStintEntry extends DriverSeasonEntry where
  teamStintInfo : TeamStintInfo
deriving DecidableEq

/-- Modelled from the spec: grouping of the event-ordered team
affiliation into maximal contiguous same-team runs (the stint segmenter
itself is absent from the source tree; only its consumer
`dashboard.py` is present).  Events at which the driver is absent
(`none` affiliation) extend the current run, and events before the first
appearance are attached to the first stint, so the runs partition the
season's events; a driver who never appears yields no stints. -/
def stintRunsGo (curTeam : Option String) (curEvents : List String) :
    List (String × Option String) → List (String × List String)
  | [] =>
    match curTeam with
    | none => []
    | some t => [(t, curEvents)]
  | (e, none) :: rest => stintRunsGo curTeam (curEvents ++ [e]) rest
  | (e, some t) :: rest =>
    match curTeam with
    | none => stintRunsGo (some t) (curEvents ++ [e]) rest
    | some t0 =>
      if t = t0 then stintRunsGo curTeam (curEvents ++ [e]) rest
      else (t0, curEvents) :: stintRunsGo (some t) [e] rest

/-- Modelled from the spec: maximal contiguous same-team runs of an
event-ordered affiliation sequence. -/
def stintRuns (l : List (String × Option String)) : List (String × List String) :=
  stintRunsGo none [] l

/-- Team recorded for the driver at one event of the season (first row),
or null when the driver is absent from the event. -/
def eventTeamOf (year_data : List Row) (driver : String) (e : String) :
    Option String :=
  (((year_data.filter (fun r => r.eventName == e)).filter
    (fun r => r.broadcastName == driver)).head?).map (fun r => r.teamName)

/-- Modelled from the spec: the stint segmenter for one driver-season.
It reconstructs the event-ordered team affiliation from the raw per-event
records, groups maximal contiguous same-team runs into stints, and for
each stint recomputes events and aggregates exactly as the timeline
builder does, scoped to the stint's events, carrying the stint's team and
a first/last-event range label. -/
def driverStints (quali_data : List Row) (year : Int) (driver : String) :
    List DriverStintEntry :=
  let year_data := quali_data.filter (fun r => r.year == year)
  let all_events := uniqueFirst (year_data.map (fun r => r.eventName))
  (stintRuns (all_events.map (fun e => (e, eventTeamOf year_data driver e)))).map
    (fun run =>
      { toDriverSeasonEntry :=
          buildDriverEntry year driver run.1 year_data run.2
        teamStintInfo :=
          { eventRange := run.2.headD "" ++ " - " ++ run.2.getLastD ""
            start_event := run.2.headD ""
            end_event := run.2.getLastD "" } })

theorem stintRunsGo_all_same (t : String) :
    ∀ (l : List (String × Option String)),
      (∀ p ∈ l, p.2 = none ∨ p.2 = some t) →
      ∀ acc, stintRunsGo (some t) acc l = [(t, acc ++ l.map Prod.fst)] := by
  intro l
  induction l with
  | nil => intro _ acc; simp [stintRunsGo]
  | cons p rest ih =>
    intro h acc
    obtain ⟨e, ot⟩ := p
    rcases h (e, ot) (List.mem_cons_self _ _) with h2 | h2 <;>
      simp only at h2 <;> subst h2
    · rw [show stintRunsGo (some t) acc ((e, none) :: rest) =
          stintRunsGo (some t) (acc ++ [e]) rest from rfl]
      rw [ih (fun q hq => h q (List.mem_cons_of_mem _ hq)) (acc ++ [e])]
      simp
    · rw [show stintRunsGo (some t) acc ((e, some t) :: rest) =
          stintRunsGo (some t) (acc ++ [e]) rest by simp [stintRunsGo]]
      rw [ih (fun q hq => h q (List.mem_cons_of_mem _ hq)) (acc ++ [e])]
      simp

theorem stintRunsGo_from_none (t : String) :
    ∀ (l : List (String × Option String)),
      (∀ p ∈ l, p.2 = none ∨ p.2 = some t) →
      (∃ p ∈ l, p.2 = some t) →
      ∀ acc, stintRunsGo none acc l = [(t, acc ++ l.map Prod.fst)] := by
  intro l
  induction l with
  | nil =>
    rintro _ ⟨p, hp, _⟩ acc
    exact absurd hp (List.not_mem_nil p)
  | cons p rest ih =>
    intro hall hex acc
    obtain ⟨e, ot⟩ := p
    rcases hall (e, ot) (List.mem_cons_self _ _) with h2 | h2 <;>
      simp only at h2 <;> subst h2
    · rw [show stintRunsGo none acc ((e, none) :: rest) =
          stintRunsGo none (acc ++ [e]) rest from rfl]
      have hex2 : ∃ p ∈ rest, p.2 = some t := by
        obtain ⟨q, hq, hq2⟩ := hex
        rcases List.mem_cons.mp hq with rfl | hq3
        · exact absurd hq2 (by simp)
        · exact ⟨q, hq3, hq2⟩
      rw [ih (fun q hq => hall q (List.mem_cons_of_mem _ hq)) hex2 (acc ++ [e])]
      simp
    · rw [show stintRunsGo none acc ((e, some t) :: rest) =
          stintRunsGo (some t) (acc ++ [e]) rest from rfl]
      rw [stintRunsGo_all_same t rest
        (fun q hq => hall q (List.mem_cons_of_mem _ hq)) (acc ++ [e])]
      simp

theorem mem_filters_team (quali_data : List Row) (year : Int)
    (driver team : String)
    (hconst : ∀ r ∈ quali_data, r.year = year → r.broadcastName = driver →
      r.teamName = team)
    (e : String) (r : Row)
    (hr : r ∈ ((quali_data.filter (fun r => r.year == year)).filter
      (fun r => r.eventName == e)).filter (fun r => r.broadcastName == driver)) :
    r.teamName = team := by
  have h1 := List.mem_filter.mp hr
  have h2 := List.mem_filter.mp h1.1
  have h3 := List.mem_filter.mp h2.1
  exact hconst r h3.1 (by simpa using h3.2) (by simpa using h1.2)

/-- C9: in a single-team season (every row of the driver that season
carries the same team, and the driver appears at least once), the stint
segmentation yields exactly one stint: its entry is the unsegmented
driver-season entry built over the full event list (the season team
mapping also resolves to that team), and its range spans the first to the
last event of the season. -/
theorem C9_single_team_stint (quali_data : List Row) (year : Int)
    (driver team : String)
    (hconst : ∀ r ∈ quali_data, r.year = year → r.broadcastName = driver →
      r.teamName = team)
    (hpart : ∃ r ∈ quali_data, r.year = year ∧ r.broadcastName = driver) :
    driverStints quali_data year driver =
      [{ toDriverSeasonEntry := buildDriverEntry year driver team
           (quali_data.filter (fun r => r.year == year))
           (uniqueFirst ((quali_data.filter (fun r => r.year == year)).map
             (fun r => r.eventName)))
         teamStintInfo :=
           { eventRange :=
               (uniqueFirst ((quali_data.filter (fun r => r.year == year)).map
                 (fun r => r.eventName))).headD "" ++ " - " ++
               (uniqueFirst ((quali_data.filter (fun r => r.year == year)).map
                 (fun r => r.eventName))).getLastD ""
             start_event :=
               (uniqueFirst ((quali_data.filter (fun r => r.year == year)).map
                 (fun r => r.eventName))).headD ""
             end_event :=
               (uniqueFirst ((quali_data.filter (fun r => r.year == year)).map
                 (fun r => r.eventName))).getLastD "" } }] ∧
    driverTeamMapping quali_data year driver = some team := by
  obtain ⟨r0, hr0, hy0, hn0⟩ := hpart
  have hr0yd : r0 ∈ quali_data.filter (fun r => r.year == year) :=
    List.mem_filter.mpr ⟨hr0, by simp [hy0]⟩
  have haff : ∀ p ∈ (uniqueFirst ((quali_data.filter
        (fun r => r.year == year)).map (fun r => r.eventName))).map
        (fun e => (e, eventTeamOf (quali_data.filter
          (fun r => r.year == year)) driver e)),
      p.2 = none ∨ p.2 = some team := by
    intro p hp
    obtain ⟨e, he, rfl⟩ := List.mem_map.mp hp
    cases hh : (((quali_data.filter (fun r => r.year == year)).filter
        (fun r => r.eventName == e)).filter
        (fun r => r.broadcastName == driver)).head? with
    | none =>
      left
      show eventTeamOf (quali_data.filter (fun r => r.year == year))
        driver e = none
      unfold eventTeamOf
      rw [hh]
      rfl
    | some r1 =>
      right
      have hr1 : r1 ∈ ((quali_data.filter (fun r => r.year == year)).filter
          (fun r => r.eventName == e)).filter
          (fun r => r.broadcastName == driver) :=
        List.mem_of_mem_head? (by rw [hh]; simp)
      have ht := mem_filters_team quali_data year driver team hconst e r1 hr1
      show eventTeamOf (quali_data.filter (fun r => r.year == year))
        driver e = some team
      unfold eventTeamOf
      rw [hh]
      exact congrArg some ht
  have he0 : r0.eventName ∈ uniqueFirst ((quali_data.filter
      (fun r => r.year == year)).map (fun r => r.eventName)) :=
    mem_uniqueFirst.mpr (List.mem_map.mpr ⟨r0, hr0yd, rfl⟩)
  have hsome : eventTeamOf (quali_data.filter (fun r => r.year == year))
      driver r0.eventName = some team := by
    have hr0f : r0 ∈ ((quali_data.filter (fun r => r.year == year)).filter
        (fun r => r.eventName == r0.eventName)).filter
        (fun r => r.broadcastName == driver) :=
      List.mem_filter.mpr
        ⟨List.mem_filter.mpr ⟨hr0yd, by simp⟩, by simp [hn0]⟩
    cases hh : (((quali_data.filter (fun r => r.year == year)).filter
        (fun r => r.eventName == r0.eventName)).filter
        (fun r => r.broadcastName == driver)).head? with
    | none =>
      rw [List.head?_eq_none_iff] at hh
      rw [hh] at hr0f
      exact absurd hr0f (List.not_mem_nil r0)
    | some r1 =>
      have hr1 : r1 ∈ ((quali_data.filter (fun r => r.year == year)).filter
          (fun r => r.eventName == r0.eventName)).filter
          (fun r => r.broadcastName == driver) :=
        List.mem_of_mem_head? (by rw [hh]; simp)
      have ht := mem_filters_team quali_data year driver team hconst
        r0.eventName r1 hr1
      unfold eventTeamOf
      rw [hh]
      exact congrArg some ht
  have hex : ∃ p ∈ (uniqueFirst ((quali_data.filter
        (fun r => r.year == year)).map (fun r => r.eventName))).map
        (fun e => (e, eventTeamOf (quali_data.filter
          (fun r => r.year == year)) driver e)),
      p.2 = some team :=
    ⟨(r0.eventName, eventTeamOf (quali_data.filter
        (fun r => r.year == year)) driver r0.eventName),
      List.mem_map.mpr ⟨r0.eventName, he0, rfl⟩, hsome⟩
  constructor
  · simp only [driverStints, stintRuns]
    rw [stintRunsGo_from_none team _ haff hex []]
    have hfst : ((uniqueFirst ((quali_data.filter
          (fun r => r.year == year)).map (fun r => r.eventName))).map
          (fun e => (e, eventTeamOf (quali_data.filter
            (fun r => r.year == year)) driver e))).map Prod.fst =
        uniqueFirst ((quali_data.filter (fun r => r.year == year)).map
          (fun r => r.eventName)) := by
      rw [List.map_map]
      exact List.map_id' _
    rw [List.nil_append, hfst]
    rfl
  · have hr0f : r0 ∈ (quali_data.filter (fun r => r.year == year)).filter
        (fun r => r.broadcastName == driver) :=
      List.mem_filter.mpr ⟨hr0yd, by simp [hn0]⟩
    cases hh : ((quali_data.filter (fun r => r.year == year)).filter
        (fun r => r.broadcastName == driver)).head? with
    | none =>
      rw [List.head?_eq_none_iff] at hh
      rw [hh] at hr0f
      exact absurd hr0f (List.not_mem_nil r0)
    | some r1 =>
      have hr1 : r1 ∈ (quali_data.filter (fun r => r.year == year)).filter
          (fun r => r.broadcastName == driver) :=
        List.mem_of_mem_head? (by rw [hh]; simp)
      have h1 := List.mem_filter.mp hr1
      have h2 := List.mem_filter.mp h1.1
      have ht := hconst r1 h2.1 (by simpa using h2.2) (by simpa using h1.2)
      unfold driverTeamMapping
      rw [hh]
      exact congrArg some ht

/-- Fixture: a single-team, two-event season for driver S. -/
def c9table : List Row :=
  [ mkRow 7 "S" "TS" (some 1) 2023 "E1" none none (some 90),
    mkRow 8 "U" "TU" (some 2) 2023 "E1" none none (some 91),
    mkRow 7 "S" "TS" (some 2) 2023 "E2" none none (some 92) ]

/-- C9 witness: driver S's single-team season segments into exactly one
stint whose entry is the unsegmented season entry over events E1, E2. -/
theorem C9_witness :
    driverStints c9table 2023 "S" =
      [{ toDriverSeasonEntry := buildDriverEntry 2023 "S" "TS"
           (c9table.filter (fun r => r.year == 2023))
           (uniqueFirst ((c9table.filter (fun r => r.year == 2023)).map
             (fun r => r.eventName)))
         teamStintInfo :=
           { eventRange :=
               (uniqueFirst ((c9table.filter (fun r => r.year == 2023)).map
                 (fun r => r.eventName))).headD "" ++ " - " ++
               (uniqueFirst ((c9table.filter (fun r => r.year == 2023)).map
                 (fun r => r.eventName))).getLastD ""
             start_event :=
               (uniqueFirst ((c9table.filter (fun r => r.year == 2023)).map
                 (fun r => r.eventName))).headD ""
             end_event :=
               (uniqueFirst ((c9table.filter (fun r => r.year == 2023)).map
                 (fun r => r.eventName))).getLastD "" } }] ∧
    driverTeamMapping c9table 2023 "S" = some "TS" :=
  C9_single_team_stint c9table 2023 "S" "TS" (by decide)
    ⟨mkRow 7 "S" "TS" (some 1) 2023 "E1" none none (some 90),
      by decide, by decide, by decide⟩
